import Mathlib

/-!
Verification of the per-guild voice-playback and connection-management core
of `bot.py` (a Discord TTS bot driving a VOICEVOX engine), as a shallow
embedding.  Python floats that appear in the source are represented exactly
as rationals; guild ids, channel ids and style ids are naturals; audio
payloads are opaque naturals.  Fallible paths (a Python exception) are
rendered with `Option`/sum types.  Event traces record the externally
visible actions (HTTP calls, transport plays, connect attempts, sleeps).
-/

namespace Bot

/-! ## Speaker resolution (`resolve_speaker`, bot.py lines 70-79) -/

/-- One style entry of the remote engine's speaker list:
`\x7bname, id\x7d`. -/
structure Style where
  name : String
  id : Nat
deriving DecidableEq, Repr

/-- One speaker entry: `\x7bname, styles: [...]\x7d`. -/
structure Speaker where
  name : String
  styles : List Style
deriving DecidableEq, Repr

/-- Inner loop of `resolve_speaker`: scan a speaker's styles for the first
style whose name matches, returning its id. -/
def findStyle (style : String) : List Style → Option Nat
  | [] => none
  | st :: rest => if st.name = style then some st.id else findStyle style rest

/-- Outer loop of `resolve_speaker`: scan speakers in order; on a speaker
whose name matches, scan its styles; the Python `for` keeps going past a
name match with no style match. -/
def findSpeaker (name style : String) : List Speaker → Option Nat
  | [] => none
  | sp :: rest =>
      if sp.name = name then
        match findStyle style sp.styles with
        | some i => some i
        | none => findSpeaker name style rest
      else findSpeaker name style rest

/-- `resolve_speaker(session, name, style)` (bot.py lines 70-79), with the
HTTP fetch abstracted into the `speakers` argument.  The fallback line
`speakers[0]["styles"][0]["id"]` indexes the first speaker and its first
style; an out-of-range index raises `IndexError` in Python, rendered here
as `none`. -/
def resolve_speaker (speakers : List Speaker) (name style : String) : Option Nat :=
  match findSpeaker name style speakers with
  | some i => some i
  | none => (speakers.head?.bind fun sp => sp.styles.head?).map Style.id

/-! ## TTS parameters and the `/vv` commands (bot.py lines 21-38, 380-399) -/

/-- The mutable process-wide TTS parameter set `current_params`
(keys of `DEFAULT_PARAMS`). -/
structure Params where
  speedScale : ℚ
  pitchScale : ℚ
  intonationScale : ℚ
  volumeScale : ℚ
  prePhonemeLength : ℚ
  postPhonemeLength : ℚ
deriving DecidableEq, Repr

/-- `DEFAULT_PARAMS` (bot.py lines 31-38). -/
def DEFAULT_PARAMS : Params :=
  { speedScale := 1, pitchScale := 0, intonationScale := 1
    volumeScale := 1, prePhonemeLength := 1/10, postPhonemeLength := 1/10 }

/-- `SHAKIPIYO_PARAMS` (bot.py lines 21-28). -/
def SHAKIPIYO_PARAMS : Params :=
  { speedScale := 23/20, pitchScale := 3/5, intonationScale := 6/5
    volumeScale := 1, prePhonemeLength := 1/10, postPhonemeLength := 1/10 }

/-- Body of the `/vv speed` handler (bot.py line 382):
`current_params["speedScale"] = float(value)` — the value is stored
unchanged, no clamping appears in the handler. -/
def vv_speed (value : ℚ) (p : Params) : Params :=
  { p with speedScale := value }

/-- Body of the `/vv pitch` handler (bot.py line 387). -/
def vv_pitch (value : ℚ) (p : Params) : Params :=
  { p with pitchScale := value }

/-- Body of the `/vv intonation` handler (bot.py line 392). -/
def vv_intonation (value : ℚ) (p : Params) : Params :=
  { p with intonationScale := value }

/-- The `app_commands.Range[float, lo, hi]` annotation on the `/vv`
handlers (bot.py lines 381, 386, 391).  Per the command framework's
contract, a value outside `[lo, hi]` is rejected before the handler runs
(the interaction fails with a range error); it is never clamped.  `none`
renders the rejection. -/
def range_check (lo hi v : ℚ) : Option ℚ :=
  if lo ≤ v ∧ v ≤ hi then some v else none

/-- `/vv speed` as invoked through the command framework: the declared
range is `[0.5, 2.0]`; in-range values reach `vv_speed`, out-of-range
invocations fail and leave the parameters untouched. -/
def vv_speed_cmd (value : ℚ) (p : Params) : Option Params :=
  (range_check (1/2) 2 value).map fun v => vv_speed v p

/-- `/vv pitch` through the framework; declared range `[-1.0, 1.0]`. -/
def vv_pitch_cmd (value : ℚ) (p : Params) : Option Params :=
  (range_check (-1) 1 value).map fun v => vv_pitch v p

/-- `/vv intonation` through the framework; declared range `[0.0, 2.0]`. -/
def vv_intonation_cmd (value : ℚ) (p : Params) : Option Params :=
  (range_check 0 2 value).map fun v => vv_intonation v p

/-! ## Global state and the per-guild reset (bot.py lines 50-59, 127-142, 270-277) -/

/-- The observable state of one `asyncio.Task` held in `player_tasks`:
whether `task.done()` is true, and whether `task.cancel()` has been
requested on it. -/
structure TaskState where
  finished : Bool
  cancelRequested : Bool
deriving DecidableEq, Repr

/-- The module-level mutable state of bot.py: the per-guild dicts
`voice_queues` and `player_tasks` (partial maps from guild id), and the
process-wide TTS settings `current_params`, `current_speaker_name`,
`current_style_name`. -/
structure BotState where
  voice_queues : Nat → Option (List Nat)
  player_tasks : Nat → Option TaskState
  current_params : Params
  current_speaker_name : String
  current_style_name : String

/-- `reset_guild_audio(gid)` (bot.py lines 127-142): if `gid` has a task
that is not done, `cancel()` it; if `gid` has a queue, `get_nowait()` in a
loop until `QueueEmpty`, i.e. drain it to empty. -/
def reset_guild_audio (gid : Nat) (s : BotState) : BotState :=
  let tasks : Nat → Option TaskState :=
    match s.player_tasks gid with
    | some t =>
        if t.finished then s.player_tasks
        else fun g =>
          if g = gid then some { t with cancelRequested := true } else s.player_tasks g
    | none => s.player_tasks
  let queues : Nat → Option (List Nat) :=
    match s.voice_queues gid with
    | some _ => fun g => if g = gid then some [] else s.voice_queues g
    | none => s.voice_queues
  { s with player_tasks := tasks, voice_queues := queues }

/-- `on_voice_state_update` (bot.py lines 270-277), restricted to its
state effect: if the member is not the bot itself, do nothing; if the
bot's own state went from some channel (`before.channel` truthy) to no
channel (`after.channel` falsy), run `reset_guild_audio` for that guild. -/
def on_voice_state_update (botUser : Option Nat) (memberId gid : Nat)
    (beforeChannel afterChannel : Option Nat) (s : BotState) : BotState :=
  let handle : BotState :=
    match beforeChannel, afterChannel with
    | some _, none => reset_guild_audio gid s
    | _, _ => s
  match botUser with
  | some b => if memberId ≠ b then s else handle
  | none => handle

/-! ## `audio_query` stage of `synth_voicevox` (bot.py lines 85-107) -/

/-- Outcome of the `audio_query` stage: a synthesis recipe obtained from
the primary call or from the JSON-body fallback, or a raised
`RuntimeError`. -/
inductive QueryOutcome
  | ok (viaFallback : Bool)
  | error (stage : String)
deriving DecidableEq, Repr

/-- The `audio_query` stage of `synth_voicevox`, as a function of the
primary response status and the fallback response status (the latter is
consulted only when the fallback request is issued).  Returns the number
of `POST /audio_query` calls made and the outcome.  Per the source:
status 200 on the primary call succeeds directly; statuses 405, 415 and
422 trigger exactly one fallback call with the text as JSON body; every
other status raises immediately. -/
def audio_query_stage (primaryStatus fallbackStatus : Nat) : Nat × QueryOutcome :=
  if primaryStatus = 200 then
    (1, .ok false)
  else if primaryStatus = 405 ∨ primaryStatus = 415 ∨ primaryStatus = 422 then
    if fallbackStatus = 200 then (2, .ok true)
    else (2, .error "audio_query r followed by r2")
  else
    (1, .error "audio_query r")

/-! ## Playback driver loop (`ensure_player`, bot.py lines 146-186) -/

/-- Externally visible actions of the `_loop` task inside `ensure_player`:
handing a payload to the transport (`vc.play`), the transport's completion
callback firing (`done_evt.set` after playback ends), and an exception
escaping the processing of one payload. -/
inductive PlayerEvent
  | play (p : Nat)
  | completed (p : Nat)
  | errorLogged (p : Nat)
deriving DecidableEq, Repr

/-- The `_loop` driver (bot.py lines 153-184), rendered as a trace over a
snapshot of the queue contents, under a schedule where the session stays
connected and the transport signals completion of every accepted item.
For each dequeued payload `p`: if processing `p` (temp-file write,
`FFmpegOpusAudio`, `vc.play`) raises, the exception propagates out of the
`while` to the single `except` clause around it, is printed, and the task
ends — the remaining payloads stay in the queue.  Otherwise the payload is
played and the loop awaits `done_evt` before the next `get()`.  Returns
the trace and the queue contents left behind when the task ends. -/
def player_loop (fails : Nat → Bool) : List Nat → List PlayerEvent × List Nat
  | [] => ([], [])
  | p :: rest =>
      if fails p then ([.errorLogged p], rest)
      else
        (.play p :: .completed p :: (player_loop fails rest).1,
          (player_loop fails rest).2)

/-- The payloads a trace hands to the transport, in order. -/
def playsOf (tr : List PlayerEvent) : List Nat :=
  tr.filterMap fun e =>
    match e with
    | .play p => some p
    | _ => none

/-- Serial-playback check: scanning the trace with the currently playing
item, a `play` is admissible only when nothing is outstanding, and a
`completed` only for the outstanding item. -/
def serialFrom : Option Nat → List PlayerEvent → Bool
  | _, [] => true
  | none, .play p :: rest => serialFrom (some p) rest
  | some _, .play _ :: _ => false
  | some p, .completed q :: rest => if p = q then serialFrom none rest else false
  | none, .completed _ :: _ => false
  | cur, .errorLogged _ :: rest => serialFrom cur rest

/-- A trace never has two items in flight at once. -/
def isSerial (tr : List PlayerEvent) : Bool :=
  serialFrom none tr

/-! ## Connection manager (`safe_connect_to_user_channel`, bot.py lines 190-268) -/

/-- The observable fields of a `discord.VoiceClient`: the channel it is
bound to (`vc.channel`, possibly `None`) and `vc.is_connected()`. -/
structure VC where
  channelId : Option Nat
  connected : Bool
deriving DecidableEq, Repr

/-- Outcome of one `target.connect(...)` attempt:
success, `discord.errors.ConnectionClosed` (e.g. code 4006; the jitter
summand `loop.time() % 0.5` observed at that attempt is recorded),
`asyncio.TimeoutError`, or any other exception. -/
inductive AttemptResult
  | success
  | connectionClosed (jitter : ℚ)
  | timeoutError
  | otherError
deriving DecidableEq, Repr

/-- Externally visible actions of `safe_connect_to_user_channel`:
a `move_to`, a `disconnect(force=True)`, one `target.connect` attempt, and
an `asyncio.sleep(d)`. -/
inductive ConnEvent
  | moveTo (ch : Nat)
  | forceDisconnect
  | attemptConnect
  | sleep (d : ℚ)
deriving DecidableEq, Repr

/-- Result of the fresh-connect `for` loop: a connection obtained from
`target.connect`, or loop exit carrying `last_err`. -/
inductive LoopResult
  | connectedNew
  | exhausted (lastErr : Option AttemptResult)
deriving DecidableEq, Repr

/-- Environment of one `safe_connect_to_user_channel` run: whether the
`move_to` call succeeds, whether `interaction.guild.voice_client` is
non-`None` inside the `ConnectionClosed` handler, the outcome of the
`i`-th connect attempt, and the `interaction.guild.voice_client` read at
the final reconciliation check. -/
structure ConnEnv where
  moveSucceeds : Bool
  tmpVcPresent : Bool
  attempts : Nat → AttemptResult
  vcNow : Option VC

/-- The fresh-connect retry loop (bot.py lines 236-259):
`for attempt in range(1, max_attempts + 1)`.  Success returns at once;
`ConnectionClosed` force-disconnects any current voice client then sleeps
`2.0 * attempt + jitter`; `TimeoutError` sleeps `1.5 * attempt`; any other
exception records `last_err` and breaks. -/
def freshLoop (env : ConnEnv) (attempt : Nat) (remaining : Nat)
    (lastErr : Option AttemptResult) : List ConnEvent × LoopResult :=
  match remaining with
  | 0 => ([], .exhausted lastErr)
  | r + 1 =>
      match env.attempts attempt with
      | .success => ([.attemptConnect], .connectedNew)
      | .connectionClosed j =>
          (.attemptConnect ::
            ((if env.tmpVcPresent then [ConnEvent.forceDisconnect] else []) ++
              ConnEvent.sleep (2 * attempt + j) ::
                (freshLoop env (attempt + 1) r (some (.connectionClosed j))).1),
            (freshLoop env (attempt + 1) r (some (.connectionClosed j))).2)
      | .timeoutError =>
          (.attemptConnect :: .sleep (3/2 * attempt) ::
              (freshLoop env (attempt + 1) r (some .timeoutError)).1,
            (freshLoop env (attempt + 1) r (some .timeoutError)).2)
      | .otherError => ([.attemptConnect], .exhausted (some .otherError))

/-- The fresh-connect phase plus the final reconciliation read (bot.py
lines 236-268): run the retry loop; on loop success the new session is
connected to `target`; otherwise read `interaction.guild.voice_client`
once more and succeed with it when it reports connected, else fail
(`None` is returned after editing the failure message). -/
def freshPhase (env : ConnEnv) (target : Nat) (maxAttempts : Nat)
    (pre : List ConnEvent) : List ConnEvent × Option VC :=
  let evs := (freshLoop env 1 maxAttempts none).1
  match (freshLoop env 1 maxAttempts none).2 with
  | .connectedNew => (pre ++ evs, some { channelId := some target, connected := true })
  | .exhausted _ =>
      match env.vcNow with
      | some v => if v.connected then (pre ++ evs, some v) else (pre ++ evs, none)
      | none => (pre ++ evs, none)

/-- `safe_connect_to_user_channel` after the lock acquisition (bot.py
lines 206-268), as a function of the current `guild.voice_client`, the
target channel and the environment.  Decision order as in the source:
same-channel connected session is returned unchanged; a connected session
on another channel is moved (on move failure, force-disconnect, sleep 1.2
seconds, fall through); a present but disconnected client is
force-disconnected and a 1.0 second sleep taken; then the fresh-connect
phase runs. -/
def safe_connect (vcOpt : Option VC) (target : Nat) (env : ConnEnv)
    (maxAttempts : Nat) : List ConnEvent × Option VC :=
  match vcOpt with
  | none => freshPhase env target maxAttempts []
  | some vc =>
      if vc.connected ∧ vc.channelId = some target then
        ([], some vc)
      else if vc.connected ∧ vc.channelId ≠ none ∧ vc.channelId ≠ some target then
        if env.moveSucceeds then
          ([.moveTo target], some { vc with channelId := some target })
        else
          -- failed move: force-disconnect, sleep 1.2; the session is now
          -- disconnected, so the orphan check fires next
          freshPhase env target maxAttempts
            ([.moveTo target, .forceDisconnect, .sleep (6/5)] ++
              [.forceDisconnect, .sleep 1])
      else if ¬ vc.connected then
        freshPhase env target maxAttempts [.forceDisconnect, .sleep 1]
      else
        freshPhase env target maxAttempts []

/-! ## Lemmas about speaker resolution -/

/-- If no style in the list bears the requested name, the style scan
returns nothing. -/
theorem findStyle_eq_none (style : String) (styles : List Style)
    (h : ∀ st ∈ styles, st.name ≠ style) : findStyle style styles = none := by
  induction styles with
  | nil => rfl
  | cons st rest ih =>
      have hst := h st (List.mem_cons_self st rest)
      simp only [findStyle, if_neg hst]
      exact ih fun x hx => h x (List.mem_cons_of_mem st hx)

/-- If no speaker entry matches both names, the speaker scan returns
nothing. -/
theorem findSpeaker_eq_none (name style : String) (speakers : List Speaker)
    (h : ∀ sp ∈ speakers, sp.name = name → ∀ st ∈ sp.styles, st.name ≠ style) :
    findSpeaker name style speakers = none := by
  induction speakers with
  | nil => rfl
  | cons sp rest ih =>
      have ihrest : findSpeaker name style rest = none :=
        ih fun x hx => h x (List.mem_cons_of_mem sp hx)
      by_cases hname : sp.name = name
      · have hsty : findStyle style sp.styles = none :=
          findStyle_eq_none style sp.styles
            (h sp (List.mem_cons_self sp rest) hname)
        simp [findSpeaker, hname, hsty, ihrest]
      · simp [findSpeaker, hname, ihrest]

/-- A successful style scan returns the id of a style in the list with
the requested name. -/
theorem findStyle_spec (style : String) (styles : List Style) (i : Nat)
    (h : findStyle style styles = some i) :
    ∃ st ∈ styles, st.name = style ∧ st.id = i := by
  induction styles with
  | nil => simp [findStyle] at h
  | cons st rest ih =>
      by_cases hst : st.name = style
      · refine ⟨st, List.mem_cons_self st rest, hst, ?_⟩
        simp only [findStyle, if_pos hst, Option.some.injEq] at h
        exact h
      · simp only [findStyle, if_neg hst] at h
        obtain ⟨st₁, hmem, hn, hid⟩ := ih h
        exact ⟨st₁, List.mem_cons_of_mem st hmem, hn, hid⟩

/-- A successful speaker scan returns the id of a style of a listed
speaker, both names matching. -/
theorem findSpeaker_spec (name style : String) (speakers : List Speaker) (i : Nat)
    (h : findSpeaker name style speakers = some i) :
    ∃ sp ∈ speakers, sp.name = name ∧ ∃ st ∈ sp.styles, st.name = style ∧ st.id = i := by
  induction speakers with
  | nil => simp [findSpeaker] at h
  | cons sp rest ih =>
      by_cases hname : sp.name = name
      · rcases hsty : findStyle style sp.styles with _ | j
        · simp only [findSpeaker, if_pos hname, hsty] at h
          obtain ⟨sp₁, hmem, h₁, h₂⟩ := ih h
          exact ⟨sp₁, List.mem_cons_of_mem sp hmem, h₁, h₂⟩
        · simp only [findSpeaker, if_pos hname, hsty, Option.some.injEq] at h
          obtain ⟨st₁, hmem, hn, hid⟩ := findStyle_spec style sp.styles j hsty
          exact ⟨sp, List.mem_cons_self sp rest, hname, st₁, hmem, hn, h ▸ hid⟩
      · simp only [findSpeaker, if_neg hname] at h
        obtain ⟨sp₁, hmem, h₁, h₂⟩ := ih h
        exact ⟨sp₁, List.mem_cons_of_mem sp hmem, h₁, h₂⟩

/-- If some style in the list bears the requested name, the style scan
succeeds. -/
theorem findStyle_isSome (style : String) (styles : List Style)
    (h : ∃ st ∈ styles, st.name = style) : (findStyle style styles).isSome := by
  induction styles with
  | nil => simp at h
  | cons st rest ih =>
      by_cases hst : st.name = style
      · simp [findStyle, hst]
      · rcases h with ⟨st₁, hmem, hname⟩
        rcases List.mem_cons.mp hmem with rfl | hrest
        · exact absurd hname hst
        · simp only [findStyle, if_neg hst]
          exact ih ⟨st₁, hrest, hname⟩

/-- If some entry matches both names, the speaker scan succeeds. -/
theorem findSpeaker_isSome (name style : String) (speakers : List Speaker)
    (h : ∃ sp ∈ speakers, sp.name = name ∧ ∃ st ∈ sp.styles, st.name = style) :
    (findSpeaker name style speakers).isSome := by
  induction speakers with
  | nil => simp at h
  | cons sp rest ih =>
      rcases h with ⟨sp₁, hmem, hname, st₁, hstmem, hstname⟩
      rcases List.mem_cons.mp hmem with heq | hrest
      · subst heq
        have hsome : (findStyle style sp₁.styles).isSome :=
          findStyle_isSome style sp₁.styles ⟨st₁, hstmem, hstname⟩
        rcases hsty : findStyle style sp₁.styles with _ | j
        · rw [hsty] at hsome; simp at hsome
        · simp [findSpeaker, hname, hsty]
      · have hrec : (findSpeaker name style rest).isSome :=
          ih ⟨sp₁, hrest, hname, st₁, hstmem, hstname⟩
        rcases hsty2 : findSpeaker name style rest with _ | j
        · rw [hsty2] at hrec; simp at hrec
        · by_cases hname2 : sp.name = name
          · rcases hsty3 : findStyle style sp.styles with _ | k
            · simp [findSpeaker, hname2, hsty3, hsty2]
            · simp [findSpeaker, hname2, hsty3]
          · simp [findSpeaker, hname2, hsty2]

/-! ## Claim C8: speaker resolution fallback and match -/

/-- C8: for every speakers list in which no entry matches both the
requested speaker name and style name, `resolve_speaker` returns the id
of the first style of the first speaker in the list instead of failing;
when an entry does match both names, it returns that style's id. -/
theorem C8_resolve_speaker (speakers : List Speaker) (name style : String) :
    (∀ sp₀ rest, speakers = sp₀ :: rest →
      ∀ st₀ stRest, sp₀.styles = st₀ :: stRest →
      (∀ sp ∈ speakers, sp.name = name → ∀ st ∈ sp.styles, st.name ≠ style) →
      resolve_speaker speakers name style = some st₀.id) ∧
    ((∃ sp ∈ speakers, sp.name = name ∧ ∃ st ∈ sp.styles, st.name = style) →
      ∃ sp ∈ speakers, sp.name = name ∧ ∃ st ∈ sp.styles, st.name = style ∧
        resolve_speaker speakers name style = some st.id) := by
  constructor
  · intro sp₀ rest hsp st₀ stRest hst hnomatch
    have hnone := findSpeaker_eq_none name style speakers hnomatch
    subst hsp
    simp [resolve_speaker, hnone, hst]
  · intro hmatch
    have hsome := findSpeaker_isSome name style speakers hmatch
    rcases hfind : findSpeaker name style speakers with _ | i
    · rw [hfind] at hsome; simp at hsome
    · obtain ⟨sp, hmem, hname, st, hstmem, hstname, hid⟩ :=
        findSpeaker_spec name style speakers i hfind
      exact ⟨sp, hmem, hname, st, hstmem, hstname, by
        simp [resolve_speaker, hfind, hid]⟩

/-- C8 witness: a concrete two-speaker list, exercised once with names
nothing matches (fallback to the first style of the first speaker) and
once with a matching pair. -/
theorem C8_resolve_speaker_witness :
    resolve_speaker
        [⟨"A", [⟨"norm", 3⟩, ⟨"soft", 4⟩]⟩, ⟨"B", [⟨"norm", 7⟩]⟩]
        "Z" "norm" = some 3 ∧
    resolve_speaker
        [⟨"A", [⟨"norm", 3⟩, ⟨"soft", 4⟩]⟩, ⟨"B", [⟨"norm", 7⟩]⟩]
        "B" "norm" = some 7 := by
  constructor
  · exact (C8_resolve_speaker
        [⟨"A", [⟨"norm", 3⟩, ⟨"soft", 4⟩]⟩, ⟨"B", [⟨"norm", 7⟩]⟩] "Z" "norm").1
      ⟨"A", [⟨"norm", 3⟩, ⟨"soft", 4⟩]⟩ [⟨"B", [⟨"norm", 7⟩]⟩] rfl
      ⟨"norm", 3⟩ [⟨"soft", 4⟩] rfl (by decide)
  · have h := (C8_resolve_speaker
        [⟨"A", [⟨"norm", 3⟩, ⟨"soft", 4⟩]⟩, ⟨"B", [⟨"norm", 7⟩]⟩] "B" "norm").2
      ⟨⟨"B", [⟨"norm", 7⟩]⟩, by decide, by decide, ⟨"norm", 7⟩, by decide, by decide⟩
    obtain ⟨sp, hmem, hname, st, hstmem, hstname, hres⟩ := h
    rw [hres]
    -- the only entry matching both names in this list is style id 7
    have : st.id = 7 := by
      fin_cases hmem <;> simp_all
    rw [this]

/-! ## Claim C10: empty speaker list -/

/-- C10: if the engine's speakers list is empty, the fallback line
`speakers[0]["styles"][0]["id"]` cannot produce an id — the Python code
raises `IndexError` there, rendered as `none`; the best-effort fallback is
total only for non-empty lists. -/
theorem C10_resolve_speaker_empty (name style : String) :
    resolve_speaker [] name style = none := rfl

/-! ## Claim C7: the `/vv` commands do not clamp -/

/-- C7 counterexample: setting speed to 3.0 does not yield a stored value
of 2.0.  The handler body stores the value unchanged — were 3.0 to reach
it, the stored value would be 3.0 — and the declared
`Range[float, 0.5, 2.0]` makes the framework reject the invocation, so
the parameters are not modified at all.  Under neither reading does an
effective value of 2.0 arise. -/
theorem C7_counterexample :
    (vv_speed 3 DEFAULT_PARAMS).speedScale = 3 ∧
    (vv_speed 3 DEFAULT_PARAMS).speedScale ≠ 2 ∧
    vv_speed_cmd 3 DEFAULT_PARAMS = none := by
  refine ⟨rfl, by norm_num [vv_speed], ?_⟩
  simp only [vv_speed_cmd, range_check]
  norm_num

/-- C7 amended: no clamping takes place anywhere.  Each `/vv` handler
stores its input unchanged (touching no other field), and the declared
`Range` bounds (speed `[0.5, 2.0]`, pitch `[-1.0, 1.0]`, intonation
`[0.0, 2.0]`) cause the command framework to reject an out-of-range
invocation outright — the parameters are left untouched — while an
in-range value is passed through to the handler exactly. -/
theorem C7_range_rejects_not_clamps (v : ℚ) (p : Params) :
    ((vv_speed v p).speedScale = v ∧ (vv_pitch v p).pitchScale = v ∧
      (vv_intonation v p).intonationScale = v) ∧
    (¬ (1/2 ≤ v ∧ v ≤ 2) → vv_speed_cmd v p = none) ∧
    ((1/2 ≤ v ∧ v ≤ 2) → vv_speed_cmd v p = some (vv_speed v p)) ∧
    (¬ (-1 ≤ v ∧ v ≤ 1) → vv_pitch_cmd v p = none) ∧
    ((-1 ≤ v ∧ v ≤ 1) → vv_pitch_cmd v p = some (vv_pitch v p)) ∧
    (¬ (0 ≤ v ∧ v ≤ 2) → vv_intonation_cmd v p = none) ∧
    ((0 ≤ v ∧ v ≤ 2) → vv_intonation_cmd v p = some (vv_intonation v p)) := by
  refine ⟨⟨rfl, rfl, rfl⟩, ?_, ?_, ?_, ?_, ?_, ?_⟩ <;> intro h
  · unfold vv_speed_cmd range_check; rw [if_neg h]; rfl
  · unfold vv_speed_cmd range_check; rw [if_pos h]; rfl
  · unfold vv_pitch_cmd range_check; rw [if_neg h]; rfl
  · unfold vv_pitch_cmd range_check; rw [if_pos h]; rfl
  · unfold vv_intonation_cmd range_check; rw [if_neg h]; rfl
  · unfold vv_intonation_cmd range_check; rw [if_pos h]; rfl

/-- C7 witness: at the documented range ends and beyond them, for the
concrete default parameters. -/
theorem C7_range_witness :
    vv_speed_cmd 3 DEFAULT_PARAMS = none ∧
    vv_speed_cmd 2 DEFAULT_PARAMS = some (vv_speed 2 DEFAULT_PARAMS) ∧
    vv_pitch_cmd (-5) DEFAULT_PARAMS = none ∧
    vv_pitch_cmd (-1) DEFAULT_PARAMS = some (vv_pitch (-1) DEFAULT_PARAMS) ∧
    vv_intonation_cmd (-1) DEFAULT_PARAMS = none ∧
    vv_intonation_cmd 0 DEFAULT_PARAMS = some (vv_intonation 0 DEFAULT_PARAMS) :=
  ⟨(C7_range_rejects_not_clamps 3 DEFAULT_PARAMS).2.1 (by norm_num),
   (C7_range_rejects_not_clamps 2 DEFAULT_PARAMS).2.2.1 (by norm_num),
   (C7_range_rejects_not_clamps (-5) DEFAULT_PARAMS).2.2.2.1 (by norm_num),
   (C7_range_rejects_not_clamps (-1) DEFAULT_PARAMS).2.2.2.2.1 (by norm_num),
   (C7_range_rejects_not_clamps (-1) DEFAULT_PARAMS).2.2.2.2.2.1 (by norm_num),
   (C7_range_rejects_not_clamps 0 DEFAULT_PARAMS).2.2.2.2.2.2 (by norm_num)⟩

/-! ## Claim C9: the reset touches only the guild's queue and task -/

/-- C9: `reset_guild_audio gid` leaves the process-wide voice parameters
and the current speaker/style selection unchanged, and does not touch any
other guild's queue or task. -/
theorem C9_reset_frame (gid : Nat) (s : BotState) :
    (reset_guild_audio gid s).current_params = s.current_params ∧
    (reset_guild_audio gid s).current_speaker_name = s.current_speaker_name ∧
    (reset_guild_audio gid s).current_style_name = s.current_style_name ∧
    (∀ g, g ≠ gid →
      (reset_guild_audio gid s).voice_queues g = s.voice_queues g ∧
      (reset_guild_audio gid s).player_tasks g = s.player_tasks g) := by
  refine ⟨rfl, rfl, rfl, fun g hg => ⟨?_, ?_⟩⟩
  · simp only [reset_guild_audio]
    rcases s.voice_queues gid with _ | q <;> simp [hg]
  · simp only [reset_guild_audio]
    rcases s.player_tasks gid with _ | t
    · rfl
    · rcases ht : t.finished <;> simp [ht, hg]

/-- C9 witness: a concrete state with two guilds; resetting guild 1
leaves guild 2's queue and task and all tuning parameters intact. -/
theorem C9_reset_frame_witness :
    (reset_guild_audio 1
        { voice_queues := fun g => if g = 1 then some [10] else some [20]
          player_tasks := fun g =>
            if g = 1 then some ⟨false, false⟩ else some ⟨false, false⟩
          current_params := SHAKIPIYO_PARAMS
          current_speaker_name := "A"
          current_style_name := "N" }).current_params = SHAKIPIYO_PARAMS ∧
    (reset_guild_audio 1
        { voice_queues := fun g => if g = 1 then some [10] else some [20]
          player_tasks := fun g =>
            if g = 1 then some ⟨false, false⟩ else some ⟨false, false⟩
          current_params := SHAKIPIYO_PARAMS
          current_speaker_name := "A"
          current_style_name := "N" }).voice_queues 2 = some [20] := by
  constructor
  · exact (C9_reset_frame 1 _).1
  · have h := ((C9_reset_frame 1
        { voice_queues := fun g => if g = 1 then some [10] else some [20]
          player_tasks := fun g =>
            if g = 1 then some ⟨false, false⟩ else some ⟨false, false⟩
          current_params := SHAKIPIYO_PARAMS
          current_speaker_name := "A"
          current_style_name := "N" }).2.2.2 2 (by norm_num)).1
    rw [h]
    norm_num

/-! ## Claim C2: involuntary disconnect resets the guild's audio -/

/-- C2: when the bot's own voice state transitions from some channel to
no channel, the reset performed for that guild leaves the guild's queue
empty (whatever its contents were) and requests cancellation of the live
playback task if one is present. -/
theorem C2_disconnect_resets (b gid c : Nat) (s : BotState) :
    ((on_voice_state_update (some b) b gid (some c) none s).voice_queues gid).getD []
        = [] ∧
    (∀ q, s.voice_queues gid = some q →
      (on_voice_state_update (some b) b gid (some c) none s).voice_queues gid
        = some []) ∧
    (∀ t, s.player_tasks gid = some t → t.finished = false →
      (on_voice_state_update (some b) b gid (some c) none s).player_tasks gid
        = some { t with cancelRequested := true }) := by
  have hev : on_voice_state_update (some b) b gid (some c) none s
      = reset_guild_audio gid s := by
    simp [on_voice_state_update]
  refine ⟨?_, ?_, ?_⟩
  · rw [hev]
    simp only [reset_guild_audio]
    rcases hq : s.voice_queues gid with _ | q
    · simp [hq]
    · simp
  · intro q hq
    rw [hev]
    simp [reset_guild_audio, hq]
  · intro t ht hfin
    rw [hev]
    simp [reset_guild_audio, ht, hfin]

/-- C2 witness: a concrete state holding three queued payloads and a
running task for guild 5; the disconnect event empties the queue and
marks the task cancel-requested. -/
theorem C2_disconnect_resets_witness :
    (on_voice_state_update (some 9) 9 5 (some 3) none
        { voice_queues := fun g => if g = 5 then some [1, 2, 3] else none
          player_tasks := fun g =>
            if g = 5 then some ⟨false, false⟩ else none
          current_params := DEFAULT_PARAMS
          current_speaker_name := "A"
          current_style_name := "N" }).voice_queues 5 = some [] ∧
    (on_voice_state_update (some 9) 9 5 (some 3) none
        { voice_queues := fun g => if g = 5 then some [1, 2, 3] else none
          player_tasks := fun g =>
            if g = 5 then some ⟨false, false⟩ else none
          current_params := DEFAULT_PARAMS
          current_speaker_name := "A"
          current_style_name := "N" }).player_tasks 5 = some ⟨false, true⟩ := by
  constructor
  · exact (C2_disconnect_resets 9 5 3 _).2.1 [1, 2, 3] (by norm_num)
  · exact (C2_disconnect_resets 9 5 3 _).2.2 ⟨false, false⟩ (by norm_num) rfl

/-! ## Claim C3: the `audio_query` fallback statuses -/

/-- C3 counterexample: it is not the case that every client-error status
(4xx) on the primary `audio_query` call triggers a second attempt —
status 400 raises immediately with a single call made. -/
theorem C3_counterexample :
    ¬ (∀ s f : Nat, 400 ≤ s → s < 500 → (audio_query_stage s f).1 = 2) := by
  intro h
  have h400 := h 400 200 (by norm_num) (by norm_num)
  norm_num [audio_query_stage] at h400

/-- C3 amended: only the client-error statuses 405, 415 and 422 trigger
the JSON-body fallback, and then exactly one second call is made; a
primary status of 200 succeeds with a single call and no fallback; any
other status — 500, but equally 4xx statuses outside that trio such as
400 — raises immediately after the single primary call. -/
theorem C3_audio_query_fallback (s f : Nat) :
    ((s = 405 ∨ s = 415 ∨ s = 422) →
      (audio_query_stage s f).1 = 2 ∧
      (f = 200 → audio_query_stage s f = (2, .ok true)) ∧
      (f ≠ 200 →
        audio_query_stage s f = (2, .error "audio_query r followed by r2"))) ∧
    (s = 200 → audio_query_stage s f = (1, .ok false)) ∧
    (s ≠ 200 → s ≠ 405 → s ≠ 415 → s ≠ 422 →
      audio_query_stage s f = (1, .error "audio_query r")) := by
  refine ⟨?_, ?_, ?_⟩
  · intro hs
    have hs200 : ¬ s = 200 := by rcases hs with rfl | rfl | rfl <;> norm_num
    refine ⟨?_, ?_, ?_⟩
    · simp only [audio_query_stage, if_neg hs200, if_pos hs]
      rcases hf : decide (f = 200) <;> simp_all
    · intro hf
      simp [audio_query_stage, if_neg hs200, if_pos hs, hf]
    · intro hf
      simp [audio_query_stage, if_neg hs200, if_pos hs, hf]
  · intro hs
    simp [audio_query_stage, hs]
  · intro h200 h405 h415 h422
    have hs : ¬ (s = 405 ∨ s = 415 ∨ s = 422) := by
      rintro (rfl | rfl | rfl) <;> simp_all
    simp [audio_query_stage, h200, hs]

/-- C3 witness: status 422 falls back once and succeeds when the JSON
body retry returns 200; status 200 makes one call; status 500 makes one
call and raises. -/
theorem C3_audio_query_fallback_witness :
    audio_query_stage 422 200 = (2, .ok true) ∧
    audio_query_stage 200 0 = (1, .ok false) ∧
    audio_query_stage 500 0 = (1, .error "audio_query r") :=
  ⟨((C3_audio_query_fallback 422 200).1 (by norm_num)).2.1 rfl,
   (C3_audio_query_fallback 200 0).2.1 rfl,
   (C3_audio_query_fallback 500 0).2.2 (by norm_num) (by norm_num) (by norm_num)
     (by norm_num)⟩

/-! ## Lemmas about the playback driver loop -/

/-- A `play` head contributes its payload to the play order. -/
theorem playsOf_play (p : Nat) (tr : List PlayerEvent) :
    playsOf (.play p :: tr) = p :: playsOf tr := by
  simp [playsOf]

/-- A `completed` head contributes nothing to the play order. -/
theorem playsOf_completed (p : Nat) (tr : List PlayerEvent) :
    playsOf (.completed p :: tr) = playsOf tr := by
  simp [playsOf]

/-- An `errorLogged` head contributes nothing to the play order. -/
theorem playsOf_errorLogged (p : Nat) (tr : List PlayerEvent) :
    playsOf (.errorLogged p :: tr) = playsOf tr := by
  simp [playsOf]

/-- A balanced play/completed pair at the head of a trace preserves the
serial check. -/
theorem serialFrom_play_completed (p : Nat) (tr : List PlayerEvent) :
    serialFrom none (.play p :: .completed p :: tr) = serialFrom none tr := by
  simp [serialFrom]

/-- Characterisation of one driver run over a queue snapshot: the items
handed to the transport are exactly the longest failure-free front of the
queue, in queue order; the first failing item is consumed by the crash;
everything after it is left in the queue; and the trace is serial. -/
theorem player_loop_spec (fails : Nat → Bool) (q : List Nat) :
    playsOf (player_loop fails q).1 = q.takeWhile (fun p => ! fails p) ∧
    (player_loop fails q).2 = (q.dropWhile (fun p => ! fails p)).drop 1 ∧
    isSerial (player_loop fails q).1 = true := by
  induction q with
  | nil => exact ⟨rfl, rfl, rfl⟩
  | cons p rest ih =>
      obtain ⟨ih1, ih2, ih3⟩ := ih
      rcases hp : fails p with _ | _
      · refine ⟨?_, ?_, ?_⟩
        · simp only [player_loop, hp, Bool.false_eq_true, if_false,
            playsOf_play, playsOf_completed, List.takeWhile_cons]
          simp [hp, ih1]
        · simp only [player_loop, hp, Bool.false_eq_true, if_false,
            List.dropWhile_cons]
          simp [hp, ih2]
        · simp only [player_loop, hp, Bool.false_eq_true, if_false, isSerial]
          rw [serialFrom_play_completed]
          exact ih3
      · refine ⟨?_, ?_, ?_⟩
        · simp only [player_loop, hp, if_true, playsOf_errorLogged,
            List.takeWhile_cons]
          simp [hp, playsOf]
        · simp only [player_loop, hp, if_true, List.dropWhile_cons]
          simp [hp]
        · simp [player_loop, hp, isSerial, serialFrom]

/-- A constantly-true takeWhile keeps the whole list. -/
theorem takeWhile_const_true (q : List Nat) :
    q.takeWhile (fun _ => true) = q := by
  induction q with
  | nil => rfl
  | cons p rest ih => simp [List.takeWhile_cons, ih]

/-- A constantly-true dropWhile drops the whole list. -/
theorem dropWhile_const_true (q : List Nat) :
    q.dropWhile (fun _ => true) = [] := by
  induction q with
  | nil => rfl
  | cons p rest ih => simp [List.dropWhile_cons, ih]

/-! ## Claim C1: FIFO, one-at-a-time playback -/

/-- C1: over any queue snapshot, when no item's processing raises, the
driver hands the payloads to the transport in exactly enqueue order, the
trace alternates play/completion (never two items in flight), and the
queue is fully drained. -/
theorem C1_fifo_one_at_a_time (q : List Nat) :
    playsOf (player_loop (fun _ => false) q).1 = q ∧
    isSerial (player_loop (fun _ => false) q).1 = true ∧
    (player_loop (fun _ => false) q).2 = [] := by
  obtain ⟨h1, h2, h3⟩ := player_loop_spec (fun _ => false) q
  refine ⟨?_, h3, ?_⟩
  · rw [h1]
    simp [takeWhile_const_true]
  · rw [h2]
    simp [dropWhile_const_true]

/-! ## Claim C6: a bad payload stops the driver loop -/

/-- C6 counterexample: with payload 1 failing to encode/play, the driver
over queue [1, 2] logs the error and the task ends — payload 2 is never
handed to the transport and remains in the queue.  The `try` in `_loop`
wraps the whole `while`, so the exception exits the loop rather than
advancing to the next item. -/
theorem C6_counterexample :
    (player_loop (fun p => p == 1) [1, 2]).1 = [.errorLogged 1] ∧
    (player_loop (fun p => p == 1) [1, 2]).2 = [2] ∧
    2 ∉ playsOf (player_loop (fun p => p == 1) [1, 2]).1 := by decide

/-- C6 amended: an exception while encoding/playing one item is logged
once and terminates the driver task; the items before the first failing
one play in order, the failing item is consumed by the crash, and the
items after it are not played by this driver — they stay queued until a
later `ensure_player` call starts a fresh task (the crashed task counts
as done). -/
theorem C6_exception_ends_loop (fails : Nat → Bool) (q : List Nat) :
    playsOf (player_loop fails q).1 = q.takeWhile (fun p => ! fails p) ∧
    (player_loop fails q).2 = (q.dropWhile (fun p => ! fails p)).drop 1 :=
  ⟨(player_loop_spec fails q).1, (player_loop_spec fails q).2.1⟩

/-! ## Lemmas about the connection manager -/

/-- Number of `target.connect` attempts recorded in a trace. -/
def connectAttemptsIn : List ConnEvent → Nat
  | [] => 0
  | .attemptConnect :: rest => connectAttemptsIn rest + 1
  | _ :: rest => connectAttemptsIn rest

/-- The sleep durations recorded in a trace, in order. -/
def sleepsOf : List ConnEvent → List ℚ
  | [] => []
  | .sleep d :: rest => d :: sleepsOf rest
  | _ :: rest => sleepsOf rest

theorem connectAttemptsIn_append (l₁ l₂ : List ConnEvent) :
    connectAttemptsIn (l₁ ++ l₂) = connectAttemptsIn l₁ + connectAttemptsIn l₂ := by
  induction l₁ with
  | nil => simp [connectAttemptsIn]
  | cons e rest ih =>
      cases e with
      | moveTo ch => simp [connectAttemptsIn, ih]
      | forceDisconnect => simp [connectAttemptsIn, ih]
      | attemptConnect =>
          simp [connectAttemptsIn, ih]
          omega
      | sleep d => simp [connectAttemptsIn, ih]

theorem sleepsOf_append (l₁ l₂ : List ConnEvent) :
    sleepsOf (l₁ ++ l₂) = sleepsOf l₁ ++ sleepsOf l₂ := by
  induction l₁ with
  | nil => simp [sleepsOf]
  | cons e rest ih => cases e <;> simp [sleepsOf, ih]

/-- The retry loop makes at most `remaining` connect attempts. -/
theorem freshLoop_attempts_le (env : ConnEnv) :
    ∀ (r a : Nat) (le : Option AttemptResult),
      connectAttemptsIn (freshLoop env a r le).1 ≤ r := by
  intro r
  induction r with
  | zero => intro a le; simp [freshLoop, connectAttemptsIn]
  | succ n ih =>
      intro a le
      simp only [freshLoop]
      rcases env.attempts a with _ | j | _ | _
      · simp [connectAttemptsIn]
      · have hrec := ih (a + 1) (some (.connectionClosed j))
        rcases env.tmpVcPresent with _ | _ <;>
          · simp [connectAttemptsIn, connectAttemptsIn_append]
            omega
      · have hrec := ih (a + 1) (some .timeoutError)
        simp [connectAttemptsIn]
        omega
      · simp [connectAttemptsIn]

/-- The trace of the fresh phase is the pre-events followed by the loop
trace. -/
theorem freshPhase_trace (env : ConnEnv) (t m : Nat) (pre : List ConnEvent) :
    (freshPhase env t m pre).1 = pre ++ (freshLoop env 1 m none).1 := by
  simp only [freshPhase]
  rcases (freshLoop env 1 m none).2 with _ | e
  · rfl
  · rcases env.vcNow with _ | v
    · rfl
    · rcases hv : v.connected <;> simp [hv]

/-- Sleep durations when every attempt times out: `1.5 * attempt`. -/
theorem freshLoop_sleeps_timeout (env : ConnEnv)
    (h : ∀ k, env.attempts k = .timeoutError) :
    ∀ (r a : Nat) (le : Option AttemptResult),
      sleepsOf (freshLoop env a r le).1
        = (List.range r).map (fun i : ℕ => 3/2 * ((a : ℚ) + i)) := by
  intro r
  induction r with
  | zero => intro a le; simp [freshLoop, sleepsOf]
  | succ n ih =>
      intro a le
      simp only [freshLoop, h a]
      rw [List.range_succ_eq_map]
      simp only [List.map_cons, List.map_map, sleepsOf]
      have hfun : ((fun i : ℕ => 3/2 * ((a : ℚ) + i)) ∘ Nat.succ)
          = fun i : ℕ => 3/2 * (((a + 1 : ℕ) : ℚ) + i) := by
        funext i
        simp only [Function.comp_apply]
        push_cast
        ring
      rw [hfun, ← ih (a + 1) (some .timeoutError)]
      norm_num

/-- Sleep durations when every attempt fails with `ConnectionClosed`:
`2.0 * attempt` plus that attempt's jitter. -/
theorem freshLoop_sleeps_closed (env : ConnEnv) (j : Nat → ℚ)
    (h : ∀ k, env.attempts k = .connectionClosed (j k)) :
    ∀ (r a : Nat) (le : Option AttemptResult),
      sleepsOf (freshLoop env a r le).1
        = (List.range r).map (fun i : ℕ => 2 * ((a : ℚ) + i) + j (a + i)) := by
  intro r
  induction r with
  | zero => intro a le; simp [freshLoop, sleepsOf]
  | succ n ih =>
      intro a le
      simp only [freshLoop, h a]
      rw [List.range_succ_eq_map]
      simp only [List.map_cons, List.map_map]
      have hsl : sleepsOf (.attemptConnect ::
          ((if env.tmpVcPresent then [ConnEvent.forceDisconnect] else []) ++
            ConnEvent.sleep (2 * a + j a) ::
              (freshLoop env (a + 1) n (some (.connectionClosed (j a)))).1))
          = (2 * (a : ℚ) + j a) ::
              sleepsOf (freshLoop env (a + 1) n (some (.connectionClosed (j a)))).1 := by
        rcases env.tmpVcPresent with _ | _ <;> simp [sleepsOf, sleepsOf_append]
      rw [hsl]
      have hfun : ((fun i : ℕ => 2 * ((a : ℚ) + i) + j (a + i)) ∘ Nat.succ)
          = fun i : ℕ => 2 * (((a + 1 : ℕ) : ℚ) + i) + j ((a + 1) + i) := by
        funext i
        simp only [Function.comp_apply]
        have harg : a + Nat.succ i = (a + 1) + i := by omega
        rw [harg]
        push_cast
        ring
      rw [hfun, ← ih (a + 1) (some (.connectionClosed (j a)))]
      norm_num

/-- Every run of `safe_connect` is one of: return of the existing
session with an empty trace, a successful move, or a fresh phase whose
pre-events contain no connect attempt. -/
theorem safe_connect_shape (vcOpt : Option VC) (target : Nat) (env : ConnEnv)
    (m : Nat) :
    (∃ v, safe_connect vcOpt target env m = ([], some v)) ∨
    (∃ v, safe_connect vcOpt target env m = ([.moveTo target], some v)) ∨
    (∃ pre, connectAttemptsIn pre = 0 ∧
      safe_connect vcOpt target env m = freshPhase env target m pre) := by
  rcases vcOpt with _ | vc
  · exact .inr (.inr ⟨[], rfl, rfl⟩)
  · by_cases h1 : (vc.connected : Prop) ∧ vc.channelId = some target
    · exact .inl ⟨vc, by simp [safe_connect, h1]⟩
    · by_cases h2 : (vc.connected : Prop) ∧ vc.channelId ≠ none ∧
          vc.channelId ≠ some target
      · by_cases h3 : (env.moveSucceeds : Prop)
        · exact .inr (.inl ⟨⟨some target, true⟩, by simp [safe_connect, h1, h2, h3]⟩)
        · exact .inr (.inr ⟨[ConnEvent.moveTo target, ConnEvent.forceDisconnect,
            ConnEvent.sleep (6/5), ConnEvent.forceDisconnect, ConnEvent.sleep 1],
            rfl, by simp [safe_connect, h1, h2, h3]⟩)
      · by_cases h4 : (vc.connected : Prop)
        · have hne : vc.channelId ≠ some target := fun hcontr => h1 ⟨h4, hcontr⟩
          have hnone : vc.channelId = none := by
            by_contra hn
            exact h2 ⟨h4, hn, hne⟩
          exact .inr (.inr ⟨[], rfl, by simp [safe_connect, h4, hnone]⟩)
        · exact .inr (.inr ⟨[ConnEvent.forceDisconnect, ConnEvent.sleep 1],
            rfl, by simp [safe_connect, h1, h2, h4]⟩)

/-! ## Claim C4: ensureConnected is idempotent on the same target -/

/-- C4: with an existing connected session on the requested channel,
`safe_connect_to_user_channel` returns that session unchanged and its
trace is empty — no move, disconnect or connect attempt; hence any two
consecutive calls with the same target (under any environment and
attempt budget, there being no intervening disconnect) yield the same
session. -/
theorem C4_safe_connect_idempotent (vc : VC) (target : Nat) (env : ConnEnv)
    (m : Nat) (hc : vc.connected = true) (hch : vc.channelId = some target) :
    safe_connect (some vc) target env m = ([], some vc) ∧
    (∀ env₂ m₂, safe_connect (some vc) target env₂ m₂ = ([], some vc)) := by
  have key : ∀ e mm, safe_connect (some vc) target e mm = ([], some vc) := by
    intro e mm
    simp [safe_connect, hc, hch]
  exact ⟨key env m, key⟩

/-- C4 witness: a concrete connected session on channel 4 is returned
unchanged with an empty action trace. -/
theorem C4_safe_connect_idempotent_witness :
    safe_connect (some ⟨some 4, true⟩) 4
        ⟨true, true, fun _ => .otherError, none⟩ 4
      = ([], some ⟨some 4, true⟩) ∧
    safe_connect (some ⟨some 4, true⟩) 4
        ⟨false, false, fun _ => .success, some ⟨some 9, false⟩⟩ 4
      = ([], some ⟨some 4, true⟩) := by
  have h := C4_safe_connect_idempotent ⟨some 4, true⟩ 4
    ⟨true, true, fun _ => .otherError, none⟩ 4 rfl rfl
  exact ⟨h.1, h.2 ⟨false, false, fun _ => .success, some ⟨some 9, false⟩⟩ 4⟩

/-! ## Claim C5: bounded retries, backoff, final reconciliation -/

/-- C5: the fresh-connect phase makes at most 4 connect attempts (under
the default budget `max_attempts = 4`, whatever the prior session state);
a timeout at attempt `k` is retried after sleeping `1.5 * k` and an
abrupt session-close after `2.0 * k` plus that attempt's jitter — the
backoff grows linearly with the attempt number, as witnessed by the
concrete sleep sequences of uniform-failure runs; a non-transient failure
on the first attempt ends the loop at once with that failure as the last
cause; and after the loop exhausts, one final read of the transport state
decides the outcome: the session found there on success, failure
otherwise. -/
theorem C5_fresh_connect_policy (env : ConnEnv) (target : Nat) :
    (∀ vcOpt, connectAttemptsIn (safe_connect vcOpt target env 4).1 ≤ 4) ∧
    ((∀ k, env.attempts k = .timeoutError) →
      sleepsOf (freshLoop env 1 4 none).1 = [3/2, 3, 9/2, 6]) ∧
    (∀ j : Nat → ℚ, (∀ k, env.attempts k = .connectionClosed (j k)) →
      sleepsOf (freshLoop env 1 4 none).1
        = [2 + j 1, 4 + j 2, 6 + j 3, 8 + j 4]) ∧
    (env.attempts 1 = .otherError →
      freshLoop env 1 4 none = ([.attemptConnect], .exhausted (some .otherError))) ∧
    (∀ e, (freshLoop env 1 4 none).2 = .exhausted e →
      (∀ v, env.vcNow = some v → v.connected = true →
        (freshPhase env target 4 []).2 = some v) ∧
      (∀ v, env.vcNow = some v → v.connected = false →
        (freshPhase env target 4 []).2 = none) ∧
      (env.vcNow = none → (freshPhase env target 4 []).2 = none)) := by
  refine ⟨?_, ?_, ?_, ?_, ?_⟩
  · intro vcOpt
    have hfp : ∀ pre, connectAttemptsIn pre = 0 →
        connectAttemptsIn (freshPhase env target 4 pre).1 ≤ 4 := by
      intro pre hpre
      rw [freshPhase_trace, connectAttemptsIn_append, hpre]
      simpa using freshLoop_attempts_le env 4 1 none
    rcases safe_connect_shape vcOpt target env 4 with ⟨v, hv⟩ | ⟨v, hv⟩ | ⟨pre, hpre, hv⟩
    · simp [hv, connectAttemptsIn]
    · simp [hv, connectAttemptsIn]
    · rw [hv]
      exact hfp pre hpre
  · intro h
    rw [freshLoop_sleeps_timeout env h 4 1 none]
    norm_num [List.range_succ]
  · intro j h
    rw [freshLoop_sleeps_closed env j h 4 1 none]
    norm_num [List.range_succ]
  · intro h
    simp [freshLoop, h]
  · intro e hexh
    refine ⟨?_, ?_, ?_⟩
    · intro v hv hconn
      simp [freshPhase, hexh, hv, hconn]
    · intro v hv hconn
      simp [freshPhase, hexh, hv, hconn]
    · intro hv
      simp [freshPhase, hexh, hv]

/-- C5 witness: with every attempt timing out and the final read showing
a connected client on channel 7, the run makes at most 4 attempts, sleeps
1.5, 3, 4.5 then 6 seconds, and succeeds through the reconciliation
read. -/
theorem C5_fresh_connect_policy_witness :
    connectAttemptsIn
        (safe_connect none 7
          ⟨true, true, fun _ => .timeoutError, some ⟨some 7, true⟩⟩ 4).1 ≤ 4 ∧
    sleepsOf
        (freshLoop ⟨true, true, fun _ => .timeoutError, some ⟨some 7, true⟩⟩
          1 4 none).1 = [3/2, 3, 9/2, 6] ∧
    (freshPhase ⟨true, true, fun _ => .timeoutError, some ⟨some 7, true⟩⟩
        7 4 []).2 = some ⟨some 7, true⟩ := by
  refine ⟨(C5_fresh_connect_policy _ 7).1 none,
    (C5_fresh_connect_policy _ 7).2.1 (fun k => rfl), ?_⟩
  have hexh : (freshLoop ⟨true, true, fun _ => .timeoutError, some ⟨some 7, true⟩⟩
      1 4 none).2 = .exhausted (some .timeoutError) := by decide
  exact (((C5_fresh_connect_policy
      ⟨true, true, fun _ => .timeoutError, some ⟨some 7, true⟩⟩ 7).2.2.2.2
      (some .timeoutError) hexh).1 ⟨some 7, true⟩ rfl rfl)

end Bot
